import Mathlib

/-!
Verification of the Contract-Management-System request gate (middleware)
and the client-side auth state cache (AuthService).

The middleware operates on JavaScript strings; we embed paths, cookie
values and query parameters as `List Char`, with the JS string
operations (`startsWith`, `includes`, `endsWith`, `split`, `length`)
defined below as executable functions on character lists.  The session
lookup performed through the provider SDK is an external capability; it
is embedded as an explicit outcome value (`SessionLookup`).  Cookie
mutations are applied to the outgoing response object, which we track as
a list of cookie-set operations on the pass-through response; redirect
responses are fresh objects and carry no cookie mutations.
-/

namespace CMS

/-- Embed a Lean string literal as its character list (JS string model). -/
def str (s : String) : List Char := s.data

/-- Prefix test, recursing on the candidate prefix. -/
def isPrefixL : List Char → List Char → Bool
  | [], _ => true
  | _ :: _, [] => false
  | b :: p, a :: s => a == b && isPrefixL p s

/-- JS `s.startsWith(p)` on character lists. -/
def startsWithL (s p : List Char) : Bool := isPrefixL p s

/-- JS `s.includes(sub)` (substring containment) on character lists. -/
def containsSub (s sub : List Char) : Bool :=
  match s with
  | [] => startsWithL [] sub
  | a :: t => startsWithL (a :: t) sub || containsSub t sub

/-- JS `s.endsWith(p)` on character lists. -/
def endsWithL (s p : List Char) : Bool :=
  startsWithL s.reverse p.reverse

/-- JS `s.split(c)` for a single-character separator: splits into the
list of fields; `"".split(c)` is `[""]`. -/
def splitOnChar (c : Char) : List Char → List (List Char)
  | [] => [[]]
  | a :: rest =>
    if a == c then [] :: splitOnChar c rest
    else
      match splitOnChar c rest with
      | [] => [[a]]
      | h :: t => (a :: h) :: t

/-- A cookie-set operation applied to the outgoing response
(`res.cookies.set({name, value, expires, path})`). -/
structure CookieSet where
  name : List Char
  value : List Char
  expiresEpoch : Nat
  cookiePath : List Char
deriving DecidableEq, Repr

/-- The middleware's result: either the pass-through response `res`
(carrying any cookie mutations applied to it) or a redirect response
(a fresh object: target path, query parameters, HTTP status). -/
inductive Response where
  | next (cookiesSet : List CookieSet)
  | redirect (path : List Char) (query : List (List Char × List Char)) (status : Nat)
deriving DecidableEq, Repr

/-- Cookie mutations carried by a response: only the pass-through `res`
object ever receives them; a redirect is a fresh response. -/
def responseCookieSets : Response → List CookieSet
  | .next cs => cs
  | .redirect _ _ _ => []

/-- The inbound request: path, referer header, cookie jar, query
parameters of `req.nextUrl`.  Immutable per request. -/
structure Request where
  pathname : List Char
  referer : Option (List Char)
  cookies : List (List Char × List Char)
  query : List (List Char × List Char)

/-- Outcome of `await Promise.race([supabase.auth.getSession(), timer])`:
the 5000ms timer fired first, the lookup resolved with an error field,
the lookup threw, or the lookup resolved with/without a session. -/
inductive SessionLookup where
  | timeout
  | errored
  | thrown
  | ok (session : Bool)

/-- `req.cookies.get(name)?.value`. -/
def lookupCookie (cookies : List (List Char × List Char)) (name : List Char) :
    Option (List Char) :=
  (cookies.find? fun kv => kv.1 == name).map fun kv => kv.2

/-- JS `url.searchParams.set(k, v)` modelled on an association list:
any previous binding of `k` is dropped and `(k, v)` is appended. -/
def setParam (q : List (List Char × List Char)) (k v : List Char) :
    List (List Char × List Char) :=
  (q.filter fun kv => !(kv.1 == k)) ++ [(k, v)]

/-- The middleware's exclusion test (source lines 10-15): static files,
API routes, file-like paths (containing a dot), favicon. -/
def excludedPath (p : List Char) : Bool :=
  startsWithL p (str "/_next") || startsWithL p (str "/api") ||
    containsSub p (str ".") || startsWithL p (str "/favicon.ico")

/-- The redirect-loop breaker (source line 71): pass through when the
path targets the login page and the referer does as well. -/
def loopBreaker (req : Request) : Bool :=
  match req.referer with
  | none => false
  | some r =>
    containsSub req.pathname (str "/auth/login") && containsSub r (str "/auth/login")

/-- The recognized locales (source lines 94 and 110). -/
def locales : List String := ["en", "ar"]

/-- Source lines 94-96: the path carries no recognized locale, i.e. for
every recognized locale it neither starts with `/<locale>/` nor equals
`/<locale>`. -/
def pathnameIsMissingLocale (p : List Char) : Bool :=
  locales.all fun l =>
    !(startsWithL p (str ("/" ++ l ++ "/"))) && !(p == str ("/" ++ l))

/-- Source lines 109-111: the first path segment if it is a recognized
locale, else the default `en`. -/
def currentLocaleOf (p : List Char) : List Char :=
  let pathLocale := (splitOnChar '/' p).getD 1 []
  if pathLocale == str "en" || pathLocale == str "ar" then pathLocale else str "en"

/-- Source lines 114-135: the public routes for a locale. -/
def publicRoutesFor (loc : List Char) : List (List Char) :=
  [str "/" ++ loc ++ str "/auth/login",
   str "/" ++ loc ++ str "/auth/signup",
   str "/" ++ loc ++ str "/auth/forgot-password",
   str "/" ++ loc ++ str "/auth/reset-password",
   str "/" ++ loc ++ str "/auth/callback",
   str "/" ++ loc ++ str "/auth/bypass",
   str "/" ++ loc ++ str "/demo",
   str "/" ++ loc ++ str "/onboarding",
   str "/" ++ loc ++ str "/test-auth",
   str "/" ++ loc ++ str "/test-auth-system",
   str "/" ++ loc ++ str "/test-user-signup",
   str "/" ++ loc ++ str "/debug-auth",
   str "/" ++ loc ++ str "/debug-promoter",
   str "/" ++ loc ++ str "/dashboard/debug",
   str "/" ++ loc ++ str "/test-dashboard",
   str "/" ++ loc ++ str "/debug-redirect",
   str "/" ++ loc ++ str "/test-cookie-fix",
   str "/" ++ loc ++ str "/debug-login-flow",
   str "/" ++ loc ++ str "/test-client-session",
   str "/test-login"]

/-- Source line 137: `publicRoutes.some(route => pathname.startsWith(route))`. -/
def isPublicRouteB (loc p : List Char) : Bool :=
  (publicRoutesFor loc).any fun r => startsWithL p r

/-- Source lines 172-186: a cookie is "truncated" (invalid shape) when
present, non-empty (JS falsiness of the empty string), and either ends
in an ellipsis, is shorter than 10 characters, or does not split into
exactly 3 dot-separated segments. -/
def isTruncated (c : Option (List Char)) : Bool :=
  match c with
  | none => false
  | some v =>
    if v.isEmpty then false
    else if endsWithL v (str "...") then true
    else if v.length < 10 then true
    else if (splitOnChar '.' v).length != 3 then true
    else false

/-- The clearing write for `sb-auth-token.0` (source lines 196-201). -/
def clearSet0 : CookieSet := ⟨str "sb-auth-token.0", [], 0, str "/"⟩

/-- The clearing write for `sb-auth-token.1` (source lines 202-207). -/
def clearSet1 : CookieSet := ⟨str "sb-auth-token.1", [], 0, str "/"⟩

/-- Source lines 226-236: the trailing root-path handling; `resCookies`
is the list of cookie mutations already applied to the pass-through
response object. -/
def rootCheck (req : Request) (session : Bool) (currentLocale : List Char)
    (resCookies : List CookieSet) : Response :=
  if req.pathname == str "/" then
    .redirect
      (str "/" ++ currentLocale ++ (if session then str "/dashboard" else str "/auth/login"))
      req.query 307
  else .next resCookies

/-- Source lines 94-238: the decision chain after a successful session
lookup (locale handling, public-route gating, login-page redirect,
cookie sanity check, root-path handling). -/
def gateCore (req : Request) (session : Bool) : Response :=
  let p := req.pathname
  if pathnameIsMissingLocale p then
    .redirect (str "/en" ++ p) req.query 307
  else
    let currentLocale := currentLocaleOf p
    let isPublicRoute := isPublicRouteB currentLocale p
    if !session && !isPublicRoute then
      if containsSub p (str "/auth/login") then .next []
      else
        .redirect (str "/" ++ currentLocale ++ str "/auth/login")
          (setParam req.query (str "redirect") p) 307
    else if session && startsWithL p (str "/" ++ currentLocale ++ str "/auth/login") then
      .redirect (str "/" ++ currentLocale ++ str "/dashboard") req.query 302
    else
      let t0 := lookupCookie req.cookies (str "sb-auth-token.0")
      let t1 := lookupCookie req.cookies (str "sb-auth-token.1")
      if isTruncated t0 || isTruncated t1 then
        if !session then
          if !isPublicRoute then
            .redirect (str "/" ++ currentLocale ++ str "/auth/login")
              (setParam req.query (str "redirect") p) 307
          else rootCheck req session currentLocale [clearSet0, clearSet1]
        else rootCheck req session currentLocale []
      else rootCheck req session currentLocale []

/-- The whole middleware (source lines 6-246): exclusion check, loop
breaker, session lookup with every failure mode failing open, then the
decision chain. -/
def middleware (req : Request) (lookup : SessionLookup) : Response :=
  if excludedPath req.pathname then .next []
  else if loopBreaker req then .next []
  else
    match lookup with
    | .timeout => .next []
    | .errored => .next []
    | .thrown => .next []
    | .ok session => gateCore req session

/-!
The client-side auth state cache (`AuthService`).  The provider SDK
calls, the `/api/auth/check-session` fallback and the `/api/auth/logout`
endpoint are external; each call's outcome is embedded as an explicit
value (`Res`: resolved value or thrown).  `updateState` replaces the
state record and broadcasts it to every listener, so an execution is
summarised by the ordered list of broadcast states.
-/

/-- Outcome of an awaited external call: resolved value or thrown. -/
inductive Res (α : Type) where
  | ok (val : α)
  | exn
deriving DecidableEq

/-- A provider user; only the identifier is consumed locally. -/
structure AuthUser where
  id : String
deriving DecidableEq, Repr

/-- A provider session as consumed locally: its user plus the token
fields that the mock session constructed from the check-session
fallback carries (source lines 122-128). -/
structure Session where
  user : AuthUser
  accessToken : String
  refreshToken : String
  expiresIn : Nat
  tokenType : String
deriving DecidableEq, Repr

/-- The mock session built from the check-session fallback data. -/
def mockSession (u : AuthUser) : Session :=
  ⟨u, "manual-check", "manual-check", 3600, "bearer"⟩

/-- The cached auth state (source lines 5-13). -/
structure AuthState where
  user : Option AuthUser
  session : Option Session
  loading : Bool
  mounted : Bool
  profile : Option String
  roles : List String
  profileNotFound : Bool
deriving DecidableEq, Repr

/-- The initial cached state (source lines 18-26). -/
def initialAuthState : AuthState :=
  { user := none, session := none, loading := true, mounted := false,
    profile := none, roles := [], profileNotFound := false }

/-- The service's mutable fields: the cached state and the listener
set; listeners are identified by tokens. -/
structure ServiceState where
  authState : AuthState
  listeners : List Nat

/-- A fresh service instance (constructor plus field initialisers). -/
def freshServiceState : ServiceState := ⟨initialAuthState, []⟩

/-- JS `Set.add`: inserting an already-present element is a no-op. -/
def addListener (l : Nat) (ls : List Nat) : List Nat :=
  if l ∈ ls then ls else ls ++ [l]

/-- JS `Set.delete`. -/
def removeListener (l : Nat) (ls : List Nat) : List Nat :=
  ls.filter fun x => x != l

/-- `subscribe(listener)` (source lines 51-59): add the listener to the
set and synchronously invoke it once with the current state.  Returns
the new service state together with the list of invocations performed
(listener, state passed to it). -/
def subscribe (l : Nat) (s : ServiceState) : ServiceState × List (Nat × AuthState) :=
  ({ s with listeners := addListener l s.listeners }, [(l, s.authState)])

/-- The unsubscribe closure returned by `subscribe` (source lines
56-58): deletes the listener from the set. -/
def unsubscribe (l : Nat) (s : ServiceState) : ServiceState :=
  { s with listeners := removeListener l s.listeners }

/-- Data returned by the `/api/auth/check-session` fallback. -/
structure CheckData where
  success : Bool
  hasSession : Bool
  user : Option AuthUser
deriving DecidableEq

/-- Result of `client.auth.refreshSession()`: the refreshed session (if
any) and whether an error field was present. -/
structure RefreshData where
  session : Option Session
  hasErr : Bool
deriving DecidableEq

/-- The external outcomes consumed by one run of `initializeAuth`:
whether a client could be created, and the outcomes of the primary
`getSession`, of `refreshSession`, and of the check-session fetch. -/
structure InitEnv where
  clientAvailable : Bool
  getSession : Res (Option Session)
  refresh : Res RefreshData
  checkSession : Res CheckData
deriving DecidableEq

/-- `initializeAuth()` (source lines 73-219), given the outcomes of its
external calls and the state at entry: returns the ordered list of
states broadcast by its `updateState` calls up to the point where the
returned promise settles.  The background profile/role load (source
lines 187-204) is fire-and-forget and is only started when the primary
`getSession` returned a session (`userId` is read from
`currentSession`), so in sessionless executions no broadcast follows
the settle point. -/
def initializeAuth (env : InitEnv) (s0 : AuthState) : List AuthState :=
  if !env.clientAvailable then
    [{ s0 with loading := false, mounted := true }]
  else
    match env.getSession with
    | .exn =>
      [{ s0 with profile := none, roles := [], loading := false }]
    | .ok currentSession =>
      let s1 : AuthState :=
        { s0 with session := currentSession,
                  user := currentSession.map Session.user,
                  loading := false, mounted := true }
      match currentSession with
      | some _ => [s1]
      | none =>
        let s2 : AuthState :=
          match env.refresh with
          | .exn =>
            { s1 with session := none, user := none, profile := none, roles := [] }
          | .ok rd =>
            if rd.hasErr then
              match env.checkSession with
              | .exn =>
                { s1 with session := none, user := none, profile := none, roles := [] }
              | .ok d =>
                match d.user with
                | some u =>
                  if d.success && d.hasSession then
                    { s1 with session := some (mockSession u), user := some u }
                  else
                    { s1 with session := none, user := none, profile := none, roles := [] }
                | none =>
                  { s1 with session := none, user := none, profile := none, roles := [] }
            else
              match rd.session with
              | some rs =>
                { s1 with session := some rs, user := some rs.user }
              | none =>
                { s1 with session := none, user := none, profile := none, roles := [] }
        [s1, s2, { s2 with profile := none, roles := [] }]

/-- No session is reachable by any path: the primary `getSession`
yields nothing or throws, `refreshSession` reports an error, yields no
session or throws, and the check-session fallback reports failure, no
session, no user, or throws. -/
def sessionUnreachable (env : InitEnv) : Bool :=
  (match env.getSession with | .exn => true | .ok s => s.isNone) &&
  (match env.refresh with | .exn => true | .ok rd => rd.hasErr || rd.session.isNone) &&
  (match env.checkSession with
   | .exn => true
   | .ok d => !(d.success && d.hasSession && d.user.isSome))

/-- The `{success, error}` result returned by the caller-invoked
operations. -/
structure OpResult where
  success : Bool
  errMsg : Option String
deriving DecidableEq, Repr

/-- The `/api/auth/logout` endpoint's observable response:
`response.ok`, `data.success` and `data.error`. -/
structure LogoutResp where
  okFlag : Bool
  success : Bool
  errMsg : Option String
deriving DecidableEq

/-- JS `a || b` on an optional string: `b` when `a` is absent or empty
(falsy). -/
def jsOrElse (o : Option String) (d : String) : String :=
  match o with
  | none => d
  | some s => if s = "" then d else s

/-- `signOut()` (source lines 339-372), given the outcome of the logout
fetch (fetching or body parsing may throw) and the cached state at
entry: returns the operation result, the cached state afterwards, and
the list of states broadcast. -/
def signOut (r : Res LogoutResp) (s : AuthState) :
    OpResult × AuthState × List AuthState :=
  match r with
  | .exn => (⟨false, some "Internal error during sign out"⟩, s, [])
  | .ok d =>
    if !d.okFlag || !d.success then
      (⟨false, some (jsOrElse d.errMsg "Failed to logout")⟩, s, [])
    else
      let cleared : AuthState :=
        { s with user := none, session := none, profile := none, roles := [] }
      (⟨true, none⟩, cleared, [cleared])

/-- The logout endpoint's response counts as a failure: non-ok HTTP
response, `success:false` body, or the request/parse threw. -/
def logoutFailed (r : Res LogoutResp) : Bool :=
  match r with
  | .exn => true
  | .ok d => !d.okFlag || !d.success

/-! ### Helper lemmas -/

theorem isPrefixL_append (p t : List Char) : isPrefixL p (p ++ t) = true := by
  induction p with
  | nil => rfl
  | cons a p ih => simp [isPrefixL, ih]

theorem startsWithL_append (p t : List Char) : startsWithL (p ++ t) p = true :=
  isPrefixL_append p t

theorem exists_append_of_isPrefixL :
    ∀ {p s : List Char}, isPrefixL p s = true → ∃ t, s = p ++ t := by
  intro p
  induction p with
  | nil => exact fun h => ⟨_, rfl⟩
  | cons b p ih =>
    intro s h
    cases s with
    | nil => simp [isPrefixL] at h
    | cons a s =>
      simp only [isPrefixL, Bool.and_eq_true, beq_iff_eq] at h
      obtain ⟨rfl, h2⟩ := h
      obtain ⟨t, rfl⟩ := ih h2
      exact ⟨t, rfl⟩

theorem exists_append_of_startsWithL {s p : List Char}
    (h : startsWithL s p = true) : ∃ t, s = p ++ t :=
  exists_append_of_isPrefixL h

theorem loopBreaker_false_of_not_login {req : Request}
    (h : containsSub req.pathname (str "/auth/login") = false) :
    loopBreaker req = false := by
  unfold loopBreaker
  cases req.referer with
  | none => rfl
  | some r => simp [h]

theorem ne_root_of_not_missing {p : List Char}
    (h : pathnameIsMissingLocale p = false) : (p == str "/") = false := by
  cases hb : p == str "/" with
  | false => rfl
  | true =>
    have hp : p = str "/" := by simpa using hb
    rw [hp, (by decide : pathnameIsMissingLocale (str "/") = true)] at h
    exact Bool.noConfusion h

theorem isTruncated_of_short {v : List Char} (h : v.length = 5) :
    isTruncated (some v) = true := by
  have hne : ¬(v.isEmpty = true) := by
    cases v with
    | nil => simp at h
    | cons a t => simp
  simp only [isTruncated]
  rw [if_neg hne]
  split
  · rfl
  · rw [if_pos (show v.length < 10 by omega)]

theorem missing_en_slash (t : List Char) :
    pathnameIsMissingLocale (str "/en/" ++ t) = false := rfl

theorem missing_en_login (t : List Char) :
    pathnameIsMissingLocale (str "/en/auth/login" ++ t) = false := rfl

theorem missing_ar_login (t : List Char) :
    pathnameIsMissingLocale (str "/ar/auth/login" ++ t) = false := rfl

theorem missing_prefixed (t : List Char) :
    pathnameIsMissingLocale (str "/en" ++ (str "/" ++ t)) = false := rfl

theorem locale_en_login (t : List Char) :
    currentLocaleOf (str "/en/auth/login" ++ t) = str "en" := rfl

theorem locale_ar_login (t : List Char) :
    currentLocaleOf (str "/ar/auth/login" ++ t) = str "ar" := rfl

theorem sw_en_login (t : List Char) :
    startsWithL (str "/en/auth/login" ++ t)
      (str "/" ++ (str "en" ++ str "/auth/login")) = true := rfl

theorem sw_ar_login (t : List Char) :
    startsWithL (str "/ar/auth/login" ++ t)
      (str "/" ++ (str "ar" ++ str "/auth/login")) = true := rfl

/-- With a session present the cookie-clearing branch is unreachable, so
no response ever carries a cookie mutation. -/
theorem responseCookieSets_session (req : Request) :
    responseCookieSets (middleware req (.ok true)) = [] := by
  simp only [middleware, gateCore, rootCheck]
  split_ifs <;> simp_all [responseCookieSets]

/-! ### Claim theorems -/

/-- C2: for every request that reaches the session-lookup step (indeed
for every request at all), a lookup timeout, a reported lookup error or
a thrown lookup all fail open: the middleware returns the pass-through
response with no redirect and no cookie mutation. -/
theorem session_lookup_failure_fails_open (req : Request) :
    middleware req .timeout = .next [] ∧ middleware req .errored = .next [] ∧
      middleware req .thrown = .next [] := by
  refine ⟨?_, ?_, ?_⟩ <;>
    (unfold middleware; split_ifs <;> rfl)

/-- C1 counterexample: the path `/en/foo/auth/login` is not excluded,
carries the locale prefix `en`, is not a public route and is not the
login page, yet with no session the gate passes it through (source line
147 passes through any path containing `/auth/login`) instead of
redirecting to `/en/auth/login?redirect=...`. -/
theorem login_substring_passthrough_cex :
    excludedPath (str "/en/foo/auth/login") = false ∧
    pathnameIsMissingLocale (str "/en/foo/auth/login") = false ∧
    isPublicRouteB (currentLocaleOf (str "/en/foo/auth/login"))
      (str "/en/foo/auth/login") = false ∧
    startsWithL (str "/en/foo/auth/login") (str "/en/auth/login") = false ∧
    startsWithL (str "/en/foo/auth/login") (str "/ar/auth/login") = false ∧
    middleware ⟨str "/en/foo/auth/login", none, [], []⟩ (.ok false) = .next [] := by
  decide

/-- C1 (amended): for every request whose path is not excluded, carries
a recognized locale prefix, is not a public route for that locale, and
does not contain `/auth/login` as a substring, if the session lookup
succeeds and reports no session, the gate redirects to
`/<locale>/auth/login` with the `redirect` query parameter set to the
original path; this holds for every locale in the recognized set. -/
theorem no_session_protected_redirects_login (req : Request)
    (hex : excludedPath req.pathname = false)
    (hml : pathnameIsMissingLocale req.pathname = false)
    (hpub : isPublicRouteB (currentLocaleOf req.pathname) req.pathname = false)
    (hlog : containsSub req.pathname (str "/auth/login") = false) :
    middleware req (.ok false) =
      .redirect (str "/" ++ currentLocaleOf req.pathname ++ str "/auth/login")
        (setParam req.query (str "redirect") req.pathname) 307 := by
  have hlb := loopBreaker_false_of_not_login hlog
  simp [middleware, gateCore, hex, hlb, hml, hpub, hlog]

theorem no_session_protected_redirects_login_witness :
    excludedPath (str "/en/contracts") = false ∧
    pathnameIsMissingLocale (str "/en/contracts") = false ∧
    isPublicRouteB (currentLocaleOf (str "/en/contracts")) (str "/en/contracts") = false ∧
    containsSub (str "/en/contracts") (str "/auth/login") = false ∧
    middleware ⟨str "/en/contracts", none, [], []⟩ (.ok false) =
      .redirect (str "/" ++ currentLocaleOf (str "/en/contracts") ++ str "/auth/login")
        (setParam [] (str "redirect") (str "/en/contracts")) 307 :=
  ⟨by decide, by decide, by decide, by decide,
   no_session_protected_redirects_login ⟨str "/en/contracts", none, [], []⟩
     (by decide) (by decide) (by decide) (by decide)⟩

/-- C3: at the cookie sanity check (a request that passed the
exclusion, loop-breaker and locale steps, with an auth cookie of length
5, an invalid shape): with no session the gate clears both named
cookies when the path is public — and an execution with no session only
reaches the check on a public path, non-public paths having been
redirected to login with a `redirect` parameter already — while with a
session present no cookie mutation occurs on the response. -/
theorem cookie_check_behavior (req : Request) (v : List Char)
    (hex : excludedPath req.pathname = false)
    (hlb : loopBreaker req = false)
    (hml : pathnameIsMissingLocale req.pathname = false)
    (hc0 : lookupCookie req.cookies (str "sb-auth-token.0") = some v)
    (hlen : v.length = 5) :
    (isPublicRouteB (currentLocaleOf req.pathname) req.pathname = true →
       middleware req (.ok false) = .next [clearSet0, clearSet1]) ∧
    (isPublicRouteB (currentLocaleOf req.pathname) req.pathname = false →
     containsSub req.pathname (str "/auth/login") = false →
       middleware req (.ok false) =
         .redirect (str "/" ++ currentLocaleOf req.pathname ++ str "/auth/login")
           (setParam req.query (str "redirect") req.pathname) 307) ∧
    responseCookieSets (middleware req (.ok true)) = [] := by
  have htr : isTruncated (some v) = true := isTruncated_of_short hlen
  have hroot : (req.pathname == str "/") = false := ne_root_of_not_missing hml
  refine ⟨?_, ?_, responseCookieSets_session req⟩
  · intro hpub
    simp [middleware, gateCore, rootCheck, hex, hlb, hml, hpub, hc0, htr, hroot]
  · intro hpub hlog
    simp [middleware, gateCore, hex, hlb, hml, hpub, hlog]

theorem cookie_check_behavior_witness :
    middleware ⟨str "/en/demo", none, [(str "sb-auth-token.0", str "abcde")], []⟩
      (.ok false) = .next [clearSet0, clearSet1] ∧
    responseCookieSets
      (middleware ⟨str "/en/demo", none, [(str "sb-auth-token.0", str "abcde")], []⟩
        (.ok true)) = [] :=
  ⟨(cookie_check_behavior ⟨str "/en/demo", none, [(str "sb-auth-token.0", str "abcde")], []⟩
      (str "abcde") (by decide) (by decide) (by decide) (by decide) (by decide)).1 (by decide),
   (cookie_check_behavior ⟨str "/en/demo", none, [(str "sb-auth-token.0", str "abcde")], []⟩
      (str "abcde") (by decide) (by decide) (by decide) (by decide) (by decide)).2.2⟩

/-- C4 counterexample: at the concrete path `/`, both with and without
a session, the gate redirects to `/en/` — the locale-prefixing step
fires first — and `/en/` is neither a dashboard nor a login target, so
the claimed root-path dashboard/login redirect does not occur. -/
theorem root_path_locale_redirect_cex :
    middleware ⟨str "/", none, [], []⟩ (.ok true) = .redirect (str "/en/") [] 307 ∧
    middleware ⟨str "/", none, [], []⟩ (.ok false) = .redirect (str "/en/") [] 307 ∧
    str "/en/" ≠ str "/en/dashboard" ∧ str "/en/" ≠ str "/ar/dashboard" ∧
    str "/en/" ≠ str "/en/auth/login" ∧ str "/en/" ≠ str "/ar/auth/login" := by
  decide

/-- C4 (amended): for every request whose path is exactly `/`, after a
successful session lookup the gate redirects to `/en/` (the
default-locale prefixing step fires before the root-path branch, which
is therefore unreachable), regardless of whether a session exists. -/
theorem root_path_redirects_default_locale (rf : Option (List Char))
    (ck q : List (List Char × List Char)) (s : Bool) :
    middleware ⟨str "/", rf, ck, q⟩ (.ok s) = .redirect (str "/en/") q 307 := by
  have hlb : loopBreaker ⟨str "/", rf, ck, q⟩ = false :=
    loopBreaker_false_of_not_login
      (show containsSub (str "/") (str "/auth/login") = false by decide)
  simp [middleware, gateCore, hlb,
    (by decide : excludedPath (str "/") = false),
    (by decide : pathnameIsMissingLocale (str "/") = true),
    (by decide : str "/en" ++ str "/" = str "/en/")]

/-- C5: for every non-excluded path (that passed the loop breaker and
whose session lookup succeeded) missing a recognized locale prefix, the
gate redirects to the same path prefixed with the default locale `en`;
and the resulting path carries a recognized locale prefix, so on
re-entry the prefixing step cannot fire again. -/
theorem missing_locale_redirect_once :
    (∀ (req : Request) (s : Bool),
        excludedPath req.pathname = false → loopBreaker req = false →
        pathnameIsMissingLocale req.pathname = true →
        middleware req (.ok s) = .redirect (str "/en" ++ req.pathname) req.query 307) ∧
    (∀ p : List Char, startsWithL p (str "/") = true →
        pathnameIsMissingLocale (str "/en" ++ p) = false) := by
  constructor
  · intro req s hex hlb hml
    simp [middleware, gateCore, hex, hlb, hml]
  · intro p hp
    obtain ⟨t, rfl⟩ := exists_append_of_startsWithL hp
    exact missing_prefixed t

theorem missing_locale_redirect_once_witness :
    middleware ⟨str "/dashboard", none, [], []⟩ (.ok true) =
      .redirect (str "/en" ++ str "/dashboard") [] 307 ∧
    pathnameIsMissingLocale (str "/en" ++ str "/dashboard") = false :=
  ⟨missing_locale_redirect_once.1 ⟨str "/dashboard", none, [], []⟩ true
     (by decide) (by decide) (by decide),
   missing_locale_redirect_once.2 (str "/dashboard") (by decide)⟩

/-- C6: for every request with a present session whose path targets the
login page `/<locale>/auth/login` for a recognized locale, and which
passed the exclusion and referer loop-breaker steps, the gate redirects
to `/<locale>/dashboard` (with a 302 status). -/
theorem session_login_page_redirects_dashboard (req : Request)
    (hex : excludedPath req.pathname = false)
    (hlb : loopBreaker req = false)
    (hlp : startsWithL req.pathname (str "/en/auth/login") = true ∨
           startsWithL req.pathname (str "/ar/auth/login") = true) :
    middleware req (.ok true) =
      .redirect (str "/" ++ currentLocaleOf req.pathname ++ str "/dashboard")
        req.query 302 := by
  rcases hlp with h | h
  · obtain ⟨t, hpp⟩ := exists_append_of_startsWithL h
    have hml : pathnameIsMissingLocale req.pathname = false := by
      rw [hpp]; exact missing_en_login t
    have hcl : currentLocaleOf req.pathname = str "en" := by
      rw [hpp]; exact locale_en_login t
    have hsw : startsWithL req.pathname
        (str "/" ++ (currentLocaleOf req.pathname ++ str "/auth/login")) = true := by
      rw [hcl, hpp]; exact sw_en_login t
    simp [middleware, gateCore, hex, hlb, hml, hsw]
  · obtain ⟨t, hpp⟩ := exists_append_of_startsWithL h
    have hml : pathnameIsMissingLocale req.pathname = false := by
      rw [hpp]; exact missing_ar_login t
    have hcl : currentLocaleOf req.pathname = str "ar" := by
      rw [hpp]; exact locale_ar_login t
    have hsw : startsWithL req.pathname
        (str "/" ++ (currentLocaleOf req.pathname ++ str "/auth/login")) = true := by
      rw [hcl, hpp]; exact sw_ar_login t
    simp [middleware, gateCore, hex, hlb, hml, hsw]

theorem session_login_page_redirects_dashboard_witness :
    middleware ⟨str "/en/auth/login", none, [], []⟩ (.ok true) =
      .redirect (str "/" ++ currentLocaleOf (str "/en/auth/login") ++ str "/dashboard")
        [] 302 :=
  session_login_page_redirects_dashboard ⟨str "/en/auth/login", none, [], []⟩
    (by decide) (by decide) (Or.inl (by decide))

set_option maxHeartbeats 1000000 in
/-- C9: the cookie shape check treats an absent or empty-valued cookie
as valid: when both named auth cookies are missing or empty, neither
tests as truncated, so the clearing branch (and its login redirect)
cannot fire and no cookie mutation reaches the response. -/
theorem empty_cookies_not_cleared (req : Request) (s : Bool)
    (h0 : lookupCookie req.cookies (str "sb-auth-token.0") = none ∨
          lookupCookie req.cookies (str "sb-auth-token.0") = some [])
    (h1 : lookupCookie req.cookies (str "sb-auth-token.1") = none ∨
          lookupCookie req.cookies (str "sb-auth-token.1") = some []) :
    isTruncated (lookupCookie req.cookies (str "sb-auth-token.0")) = false ∧
    isTruncated (lookupCookie req.cookies (str "sb-auth-token.1")) = false ∧
    responseCookieSets (middleware req (.ok s)) = [] := by
  have ht0 : isTruncated (lookupCookie req.cookies (str "sb-auth-token.0")) = false := by
    rcases h0 with h | h <;> rw [h] <;> rfl
  have ht1 : isTruncated (lookupCookie req.cookies (str "sb-auth-token.1")) = false := by
    rcases h1 with h | h <;> rw [h] <;> rfl
  refine ⟨ht0, ht1, ?_⟩
  simp only [middleware, gateCore, rootCheck, ht0, ht1]
  split_ifs <;> simp_all [responseCookieSets]

theorem empty_cookies_not_cleared_witness :
    isTruncated (lookupCookie ([] : List (List Char × List Char))
      (str "sb-auth-token.0")) = false ∧
    responseCookieSets (middleware ⟨str "/en/dashboard", none, [], []⟩ (.ok true)) = [] :=
  ⟨(empty_cookies_not_cleared ⟨str "/en/dashboard", none, [], []⟩ true
      (Or.inl (by decide)) (Or.inl (by decide))).1,
   (empty_cookies_not_cleared ⟨str "/en/dashboard", none, [], []⟩ true
      (Or.inl (by decide)) (Or.inl (by decide))).2.2⟩

/-- C7: after `initializeAuth()` settles in any execution where no
session is reachable by any path (the client is unavailable, or the
primary `getSession`, `refreshSession` and the check-session fallback
all yield nothing or fail), at least one state was broadcast and the
final broadcast state has no session, no user, no profile and no
roles. -/
theorem initializeAuth_unreachable_clears (env : InitEnv)
    (h : sessionUnreachable env = true) :
    initializeAuth env initialAuthState ≠ [] ∧
    ((initializeAuth env initialAuthState).getLastD initialAuthState).session = none ∧
    ((initializeAuth env initialAuthState).getLastD initialAuthState).user = none ∧
    ((initializeAuth env initialAuthState).getLastD initialAuthState).profile = none ∧
    ((initializeAuth env initialAuthState).getLastD initialAuthState).roles = [] := by
  obtain ⟨ca, gs, rf, cs⟩ := env
  cases ca with
  | false => simp [initializeAuth, initialAuthState]
  | true =>
    cases gs with
    | exn => simp [initializeAuth, initialAuthState]
    | ok sess =>
      simp only [sessionUnreachable, Bool.and_eq_true] at h
      obtain ⟨⟨hg, hr⟩, hc⟩ := h
      have hs : sess = none := by simpa using hg
      subst hs
      cases rf with
      | exn => simp [initializeAuth, initialAuthState]
      | ok rd =>
        obtain ⟨rs, he⟩ := rd
        cases he with
        | true =>
          cases cs with
          | exn => simp [initializeAuth, initialAuthState]
          | ok d =>
            obtain ⟨ds, dh, du⟩ := d
            cases du with
            | none => simp [initializeAuth, initialAuthState]
            | some u =>
              have hds : (ds && dh) = false := by
                rcases (by simpa using hc : ds = false ∨ dh = false) with h | h <;>
                  simp [h]
              simp [initializeAuth, initialAuthState, hds]
        | false =>
          have hrs : rs = none := by simpa using hr
          subst hrs
          simp [initializeAuth, initialAuthState]

theorem initializeAuth_unreachable_clears_witness :
    sessionUnreachable ⟨true, .ok none, .ok ⟨none, true⟩, .ok ⟨false, false, none⟩⟩ = true ∧
    ((initializeAuth ⟨true, .ok none, .ok ⟨none, true⟩, .ok ⟨false, false, none⟩⟩
        initialAuthState).getLastD initialAuthState).session = none ∧
    ((initializeAuth ⟨true, .ok none, .ok ⟨none, true⟩, .ok ⟨false, false, none⟩⟩
        initialAuthState).getLastD initialAuthState).roles = [] :=
  ⟨by decide,
   (initializeAuth_unreachable_clears
      ⟨true, .ok none, .ok ⟨none, true⟩, .ok ⟨false, false, none⟩⟩ (by decide)).2.1,
   (initializeAuth_unreachable_clears
      ⟨true, .ok none, .ok ⟨none, true⟩, .ok ⟨false, false, none⟩⟩ (by decide)).2.2.2.2⟩

/-- C8: `subscribe` on a fresh cache registers the callback,
synchronously invokes it exactly once with the current state — which on
a fresh cache has `loading:true` and `mounted:false`, no asynchronous
work having run — and the returned unsubscribe action removes the
callback from the listener set. -/
theorem subscribe_fresh_cache (l : Nat) :
    (subscribe l freshServiceState).2 = [(l, initialAuthState)] ∧
    initialAuthState.loading = true ∧
    initialAuthState.mounted = false ∧
    (subscribe l freshServiceState).1.listeners = [l] ∧
    (unsubscribe l (subscribe l freshServiceState).1).listeners = [] := by
  refine ⟨rfl, rfl, rfl, ?_, ?_⟩
  · simp [subscribe, freshServiceState, addListener]
  · simp [unsubscribe, subscribe, freshServiceState, addListener, removeListener]

/-- C10: `signOut` is atomic on failure: when the logout endpoint
responds non-ok, reports `success:false` or the request throws, the
result is `{success:false}` with an error message and the cached state
is unchanged with nothing broadcast; only on a successful logout
response are user, session, profile and roles cleared (and that cleared
state broadcast once). -/
theorem signOut_failure_atomic (r : Res LogoutResp) (s : AuthState) :
    (logoutFailed r = true →
       (signOut r s).1.success = false ∧ (signOut r s).1.errMsg.isSome = true ∧
       (signOut r s).2.1 = s ∧ (signOut r s).2.2 = []) ∧
    (logoutFailed r = false →
       (signOut r s).1 = ⟨true, none⟩ ∧
       (signOut r s).2.1 =
         { s with user := none, session := none, profile := none, roles := [] } ∧
       (signOut r s).2.2 =
         [{ s with user := none, session := none, profile := none, roles := [] }]) := by
  cases r with
  | exn => simp [signOut, logoutFailed]
  | ok d =>
    obtain ⟨okF, su, em⟩ := d
    by_cases hf : (!okF || !su) = true
    · simp [signOut, logoutFailed, hf]
    · have hf2 : (!okF || !su) = false := by simpa using hf
      simp [signOut, logoutFailed, hf2]

theorem signOut_failure_atomic_witness :
    logoutFailed (.ok ⟨false, true, none⟩) = true ∧
    (signOut (.ok ⟨false, true, none⟩) initialAuthState).2.1 = initialAuthState ∧
    (signOut (.ok ⟨false, true, none⟩) initialAuthState).2.2 = [] ∧
    logoutFailed (.ok ⟨true, true, none⟩) = false ∧
    (signOut (.ok ⟨true, true, none⟩) initialAuthState).1 = ⟨true, none⟩ :=
  ⟨by decide,
   ((signOut_failure_atomic (.ok ⟨false, true, none⟩) initialAuthState).1 (by decide)).2.2.1,
   ((signOut_failure_atomic (.ok ⟨false, true, none⟩) initialAuthState).1 (by decide)).2.2.2,
   by decide,
   ((signOut_failure_atomic (.ok ⟨true, true, none⟩) initialAuthState).2 (by decide)).1⟩

end CMS
